import Mathlib

/-!
# Verification of the calculator CLI and the inference-model template exporter

This file gives a shallow embedding of the two scripts in this repository:

* `calculator.py`, a command-line arithmetic calculator with four operations
  (`add`, `subtract`, `multiply`, `divide`), string-to-number parsing and an
  error-reporting CLI entry point `main`;
* `generate_inference_model.py`, a one-off script that builds a JSON prompt
  template record for a fixed model and serializes it with 2-space
  indentation.

Numeric values (Python `float`s) are modelled as exact rationals `ℚ` for
the contracts that are arithmetic-reduction and control-flow properties
(fold structure, zero checks, dispatch and error precedence), none of
which depend on rounding. Fallible operations return `Except CalcError ℚ`.
The one property that does depend on rounding — whether the program's
float `sum` is order-independent under permutation — is settled against a
second model of `add` over IEEE-754 binary64 values (`F64`, exact
mantissa/exponent pairs with round-to-nearest-even), where it fails.
-/

namespace Calculator

/-- The four error conditions of the CLI, in the order `main` can detect
them: too few arguments, a number that fails to parse, an operation name
missing from the dispatch table, and the explicit zero-divisor check inside
`divide`. -/
inductive CalcError where
  | insufficientArguments
  | invalidNumberFormat
  | unknownOperation
  | divisionByZero
deriving DecidableEq, Repr

/-- Function `add(*numbers)` from `calculator.py`: `sum(numbers)`, i.e. a left fold
of `+` over the whole sequence starting from `0`. -/
def add (numbers : List ℚ) : ℚ :=
  numbers.foldl (fun a b => a + b) 0

/-- Function `subtract(*numbers)` from `calculator.py`: `0` for the empty sequence,
the element itself for a singleton, otherwise
`reduce(lambda a, b: a - b, numbers)`, i.e. a left fold of `-` over the
tail starting from the head. -/
def subtract : List ℚ → ℚ
  | [] => 0
  | [x] => x
  | x :: y :: xs => (y :: xs).foldl (fun a b => a - b) x

/-- Function `multiply(*numbers)` from `calculator.py`: `0` for the empty sequence,
otherwise `reduce(lambda a, b: a * b, numbers)`. -/
def multiply : List ℚ → ℚ
  | [] => 0
  | x :: xs => xs.foldl (fun a b => a * b) x

/-- Function `divide(*numbers)` from `calculator.py`: `0` for the empty sequence,
the element itself for a singleton; otherwise every element after the
first is checked against `0` (raising `ValueError`, modelled as
`CalcError.divisionByZero`, if one is found) before
`reduce(lambda a, b: a / b, numbers)` runs. -/
def divide : List ℚ → Except CalcError ℚ
  | [] => Except.ok 0
  | [x] => Except.ok x
  | x :: y :: xs =>
    if (y :: xs).any (fun num => decide (num = 0)) then
      Except.error CalcError.divisionByZero
    else
      Except.ok ((y :: xs).foldl (fun a b => a / b) x)

/-- One step of Python's `str.lower()` as used on the ASCII operation
names accepted by the CLI: an ASCII capital letter (code 65–90) is shifted
down by 32, every other character is unchanged. -/
def pyLowerChar (c : Char) : Char :=
  if 65 ≤ c.toNat ∧ c.toNat ≤ 90 then Char.ofNat (c.toNat + 32) else c

/-- Expression `sys.argv[1].lower()` from `main`: lowercase every character of the
operation argument (ASCII case mapping). -/
def pyLower (s : String) : String :=
  String.mk (s.data.map pyLowerChar)

/-- Models Python's `float(n)` on the plain decimal literals the CLI
accepts: an optional sign, then digits with an optional fractional part
(at least one digit overall). Anything else — such as `"abc"` or `""` —
fails, which `main` turns into the invalid-number-format error. -/
def pyFloat (s : String) : Option ℚ :=
  let signed : Bool × List Char :=
    match s.data with
    | '-' :: rest => (true, rest)
    | '+' :: rest => (false, rest)
    | cs => (false, cs)
  let ip : List Char := signed.2.takeWhile Char.isDigit
  let rest : List Char := signed.2.dropWhile Char.isDigit
  let fp : Option (List Char) :=
    match rest with
    | [] => some []
    | '.' :: fs => if fs.all Char.isDigit then some fs else none
    | _ => none
  match fp with
  | none => none
  | some fs =>
    if ip = [] ∧ fs = [] then none
    else
      let mantissa : ℕ := (ip ++ fs).foldl (fun a c => a * 10 + (c.toNat - 48)) 0
      let q : ℚ :=
        if fs = [] then (mantissa : ℚ)
        else (mantissa : ℚ) / ((10 : ℚ) ^ fs.length)
      some (if signed.1 then -q else q)

/-- The comprehension `[float(n) for n in sys.argv[2:]]` from `main`:
parse every numeric argument, failing as soon as one fails. -/
def parseNumbers : List String → Option (List ℚ)
  | [] => some []
  | s :: rest =>
    match pyFloat s, parseNumbers rest with
    | some x, some xs => some (x :: xs)
    | _, _ => none

/-- The four operations of the dispatch table in `main`. -/
inductive Op where
  | add
  | subtract
  | multiply
  | divide
deriving DecidableEq, Repr

/-- The `operations` dictionary lookup in `main`: the four literal keys
`"add"`, `"subtract"`, `"multiply"`, `"divide"` map to the corresponding
functions; every other key is absent. -/
def lookupOp (operation : String) : Option Op :=
  if operation = "add" then some Op.add
  else if operation = "subtract" then some Op.subtract
  else if operation = "multiply" then some Op.multiply
  else if operation = "divide" then some Op.divide
  else none

/-- Call `operations[operation](*numbers)` from `main`: run the selected
arithmetic function; only `divide` can fail. -/
def applyOp : Op → List ℚ → Except CalcError ℚ
  | Op.add, numbers => Except.ok (add numbers)
  | Op.subtract, numbers => Except.ok (subtract numbers)
  | Op.multiply, numbers => Except.ok (multiply numbers)
  | Op.divide, numbers => divide numbers

/-- Function `main` from `calculator.py`, parametrized by the implementations
behind the dispatch table (instantiated with `applyOp` in `runCalc`; the
parameter makes "the error is raised without invoking any operation"
provable as invariance in `impls`). The control flow mirrors the source:
first the argument-count check (`len(sys.argv) < 3`, i.e. fewer than an
operation plus one number), then `.lower()` on the operation argument,
then `float` parsing of every numeric argument, then the dispatch-table
membership test, then the call. `argv` is `sys.argv[1:]`. -/
def runCalcWith (impls : Op → List ℚ → Except CalcError ℚ) :
    List String → Except CalcError ℚ
  | opArg :: numArg :: restArgs =>
    let operation := pyLower opArg
    match parseNumbers (numArg :: restArgs) with
    | none => Except.error CalcError.invalidNumberFormat
    | some numbers =>
      match lookupOp operation with
      | none => Except.error CalcError.unknownOperation
      | some op => impls op numbers
  | _ => Except.error CalcError.insufficientArguments

/-- The CLI with the real arithmetic implementations. -/
def runCalc : List String → Except CalcError ℚ :=
  runCalcWith applyOp

/-- Process exit status of `main`: `sys.exit(1)` on every error path,
an implicit status 0 after printing the result. -/
def exitCode : Except CalcError ℚ → ℕ
  | Except.ok _ => 0
  | Except.error _ => 1

/-- The static part of the message `main` prints on each error path (the
dynamic tail after the `-` or the quoted operation name is elided). -/
def errorMessage : CalcError → String
  | CalcError.insufficientArguments => "Error: Insufficient arguments"
  | CalcError.invalidNumberFormat => "Error: Invalid number format"
  | CalcError.unknownOperation => "Error: Unknown operation"
  | CalcError.divisionByZero => "Error: Division by zero is not allowed"

/-- Models `print(result)` for a Python float holding an integral value:
Python renders `8.0`, `5.0`, …; the non-integral case is rendered from
the reduced fraction and is not needed by any CLI example. -/
def pyShow (q : ℚ) : String :=
  if q.den = 1 then toString q.num ++ ".0" else toString q

/-! ## IEEE-754 binary64 model of `add`

Python floats are IEEE-754 binary64 values, so `sum` rounds after every
addition and is not order-independent. The following is an exact model of
the nonnegative normal-range fragment of that arithmetic: a double is an
exact mantissa/exponent pair, and addition is the exactly computed dyadic
sum rounded to 53 bits with round-to-nearest, ties-to-even — the rule
CPython's floats implement. -/

/-- Bit length of a natural number (fuel-bounded structural recursion so
the kernel can evaluate it). -/
def bitLen : ℕ → ℕ → ℕ
  | 0, _ => 0
  | fuel + 1, n => if n = 0 then 0 else bitLen fuel (n / 2) + 1

/-- A nonnegative finite IEEE-754 binary64 value `mant * 2 ^ exp`, with
`mant` in `[2^52, 2^53)` after rounding (or `0`). -/
structure F64 where
  mant : ℕ
  exp : ℤ
deriving DecidableEq, Repr

/-- The fraction `p / q` scaled by `2 ^ (-e)`, as an exact numerator and
denominator pair. -/
def mantNum (p q : ℕ) (e : ℤ) : ℕ × ℕ :=
  if 0 ≤ e then (p, q * 2 ^ e.toNat) else (p * 2 ^ (-e).toNat, q)

/-- Raise the candidate exponent until the scaled mantissa drops below
`2 ^ 53`; starting a few positions low, at most a handful of steps are
ever needed. -/
def adjustE : ℕ → ℕ → ℕ → ℤ → ℤ
  | 0, _, _, e => e
  | fuel + 1, p, q, e =>
    let mn := mantNum p q e
    if 2 ^ 53 ≤ mn.1 / mn.2 then adjustE fuel p q (e + 1) else e

/-- Round the nonnegative rational `p / q` to the nearest IEEE-754
binary64 value (round-to-nearest, ties-to-even) in the normal range: pick
the exponent that scales the value into `[2^52, 2^53)`, take the integer
part, and round on the exact remainder. This is how CPython converts both
decimal literals such as `0.1` and exact intermediate sums to doubles. -/
def roundRat (p q : ℕ) : F64 :=
  if p = 0 ∨ q = 0 then ⟨0, 0⟩
  else
    let f0 : ℤ := (bitLen 4000 p : ℤ) - (bitLen 4000 q : ℤ)
    let e := adjustE 16 p q (f0 - 56)
    let mn := mantNum p q e
    let m0 := mn.1 / mn.2
    let r := mn.1 % mn.2
    let m :=
      if mn.2 < 2 * r then m0 + 1
      else if 2 * r < mn.2 then m0
      else if m0 % 2 = 0 then m0 else m0 + 1
    if m = 2 ^ 53 then ⟨2 ^ 52, e + 1⟩ else ⟨m, e⟩

/-- IEEE-754 binary64 addition of nonnegative values: the exact dyadic
sum, then one rounding. -/
def f64Add (a b : F64) : F64 :=
  let emin : ℤ := min a.exp b.exp
  let s : ℕ := a.mant * 2 ^ (a.exp - emin).toNat +
    b.mant * 2 ^ (b.exp - emin).toNat
  if 0 ≤ emin then roundRat (s * 2 ^ emin.toNat) 1
  else roundRat s (2 ^ (-emin).toNat)

/-- Function `add(*numbers)` from `calculator.py` under the program's
actual float semantics: Python's `sum` folds `+` left to right starting
from `0`, rounding to binary64 after every step. -/
def addFloat (numbers : List F64) : F64 :=
  numbers.foldl f64Add ⟨0, 0⟩

/-! ## Fold characterizations shared by several claims -/

theorem foldl_add_eq_add_sum (l : List ℚ) : ∀ x : ℚ,
    l.foldl (fun a b => a + b) x = x + l.sum := by
  induction l with
  | nil => intro x; simp
  | cons y ys ih => intro x; simp [List.foldl_cons, ih, add_assoc]

theorem foldl_sub_eq_sub_sum (l : List ℚ) : ∀ x : ℚ,
    l.foldl (fun a b => a - b) x = x - l.sum := by
  induction l with
  | nil => intro x; simp
  | cons y ys ih => intro x; simp [List.foldl_cons, ih, sub_sub]

theorem foldl_mul_eq_mul_prod (l : List ℚ) : ∀ x : ℚ,
    l.foldl (fun a b => a * b) x = x * l.prod := by
  induction l with
  | nil => intro x; simp
  | cons y ys ih => intro x; simp [List.foldl_cons, ih, mul_assoc]

theorem foldl_div_eq_div_prod (l : List ℚ) : ∀ x : ℚ,
    l.foldl (fun a b => a / b) x = x / l.prod := by
  induction l with
  | nil => intro x; simp
  | cons y ys ih => intro x; simp [List.foldl_cons, ih, div_div]

theorem any_zero_iff_mem (l : List ℚ) :
    l.any (fun num => decide (num = 0)) = true ↔ (0 : ℚ) ∈ l := by
  rw [List.any_eq_true]
  constructor
  · rintro ⟨x, hx, hdec⟩
    have hx0 : x = 0 := of_decide_eq_true hdec
    rwa [hx0] at hx
  · intro h
    exact ⟨0, h, by simp⟩

/-! ## Claim theorems for the arithmetic operations -/

/-- C3: `subtract` returns `0` on the empty sequence, the element itself on
a singleton, and the left-fold subtraction `((a1 - a2) - a3) - …`
(equivalently, head minus the sum of the tail) on longer sequences; in
particular `subtract [10, 4] = 6` and `subtract [10, 4, 1] = 5`. -/
theorem subtract_contract :
    subtract [] = 0 ∧
    (∀ x : ℚ, subtract [x] = x) ∧
    (∀ (x y : ℚ) (xs : List ℚ),
      subtract (x :: y :: xs) = (y :: xs).foldl (fun a b => a - b) x) ∧
    (∀ (x y : ℚ) (xs : List ℚ),
      subtract (x :: y :: xs) = x - (y :: xs).sum) ∧
    subtract [10, 4] = 6 ∧ subtract [10, 4, 1] = 5 := by
  refine ⟨rfl, fun x => rfl, fun x y xs => rfl, fun x y xs => ?_, ?_, ?_⟩
  · show (y :: xs).foldl (fun a b => a - b) x = x - (y :: xs).sum
    exact foldl_sub_eq_sub_sum _ _
  · show ([(4 : ℚ)]).foldl (fun a b => a - b) 10 = 6
    norm_num
  · show ([(4 : ℚ), 1]).foldl (fun a b => a - b) 10 = 5
    norm_num

/-- C4: `multiply` returns `0` on the empty sequence (not the
multiplicative identity `1`), and the left-fold product of all the
elements on any non-empty sequence; in particular `multiply [6, 7] = 42`
and `multiply [2, 3, 4] = 24`. -/
theorem multiply_contract :
    multiply [] = 0 ∧
    (∀ (x : ℚ) (xs : List ℚ),
      multiply (x :: xs) = (x :: xs).foldl (fun a b => a * b) 1) ∧
    (∀ (x : ℚ) (xs : List ℚ), multiply (x :: xs) = (x :: xs).prod) ∧
    multiply [6, 7] = 42 ∧ multiply [2, 3, 4] = 24 := by
  have hfold : ∀ (x : ℚ) (xs : List ℚ),
      multiply (x :: xs) = (x :: xs).prod := by
    intro x xs
    show xs.foldl (fun a b => a * b) x = (x :: xs).prod
    rw [foldl_mul_eq_mul_prod, List.prod_cons]
  refine ⟨rfl, fun x xs => ?_, hfold, ?_, ?_⟩
  · rw [hfold, List.foldl_cons, one_mul, foldl_mul_eq_mul_prod, List.prod_cons]
  · rw [hfold]; norm_num
  · rw [hfold]; norm_num

/-- C5 counterexample: the claimed order-independence of `add` fails on
the program's floats. The doubles of the decimal literals `0.1`, `0.2`,
`0.3` (exactly rounded here from `1/10`, `2/10`, `3/10`) form a
permutation pair on which the left-fold float sum differs: the doubles
printed `0.6000000000000001` and `0.6` respectively. -/
theorem add_contract_counterexample :
    ([roundRat 1 10, roundRat 2 10, roundRat 3 10]).Perm
      [roundRat 3 10, roundRat 2 10, roundRat 1 10] ∧
    addFloat [roundRat 1 10, roundRat 2 10, roundRat 3 10] ≠
      addFloat [roundRat 3 10, roundRat 2 10, roundRat 1 10] :=
  ⟨by decide, by decide⟩

/-- C5 (amended): `add` returns the left-fold sum of the elements (`0` on
the empty sequence). Over exact rational arithmetic this equals the
arithmetic sum and is order-independent; under the program's IEEE-754
binary64 arithmetic, order-independence fails — summing the doubles of
`0.1`, `0.2`, `0.3` left to right gives mantissa `5404319552844596`
(`0.6000000000000001`) while the reversed order gives `5404319552844595`
(`0.6`). -/
theorem add_contract :
    add [] = 0 ∧
    (∀ numbers : List ℚ, add numbers = numbers.sum) ∧
    (∀ l1 l2 : List ℚ, l1.Perm l2 → add l1 = add l2) ∧
    addFloat [roundRat 1 10, roundRat 2 10, roundRat 3 10] =
      ⟨5404319552844596, -53⟩ ∧
    addFloat [roundRat 3 10, roundRat 2 10, roundRat 1 10] =
      ⟨5404319552844595, -53⟩ ∧
    addFloat [roundRat 1 10, roundRat 2 10, roundRat 3 10] ≠
      addFloat [roundRat 3 10, roundRat 2 10, roundRat 1 10] := by
  have hsum : ∀ numbers : List ℚ, add numbers = numbers.sum := by
    intro numbers
    show numbers.foldl (fun a b => a + b) 0 = numbers.sum
    rw [foldl_add_eq_add_sum, zero_add]
  exact ⟨rfl, hsum, fun l1 l2 h => by rw [hsum, hsum, h.sum_eq],
    by decide, by decide, by decide⟩

/-- Witness for C5 (amended) at a concrete permutation:
`add [1, 2] = add [2, 1]` over exact arithmetic. -/
theorem add_contract_witness :
    ([(1 : ℚ), 2]).Perm [2, 1] ∧ add [1, 2] = add [2, 1] :=
  ⟨by decide, add_contract.2.2.1 [1, 2] [2, 1] (by decide)⟩

/-- C1: `divide` returns `0` on the empty sequence and the element itself
on a singleton; on a sequence of length ≥ 2 it fails with the
division-by-zero error exactly when some element after the first is `0`,
and otherwise returns the left-fold division `((a1 / a2) / a3) / …`; a
leading `0` alone never triggers the error. -/
theorem divide_contract :
    divide [] = Except.ok 0 ∧
    (∀ x : ℚ, divide [x] = Except.ok x) ∧
    (∀ (x y : ℚ) (xs : List ℚ),
      (divide (x :: y :: xs) = Except.error CalcError.divisionByZero ↔
        (0 : ℚ) ∈ y :: xs)) ∧
    (∀ (x y : ℚ) (xs : List ℚ), (0 : ℚ) ∉ y :: xs →
      divide (x :: y :: xs) =
        Except.ok ((y :: xs).foldl (fun a b => a / b) x)) ∧
    (∀ (y : ℚ) (xs : List ℚ), (0 : ℚ) ∉ y :: xs →
      ∃ q, divide ((0 : ℚ) :: y :: xs) = Except.ok q) := by
  have hok : ∀ (x y : ℚ) (xs : List ℚ), (0 : ℚ) ∉ y :: xs →
      divide (x :: y :: xs) =
        Except.ok ((y :: xs).foldl (fun a b => a / b) x) := by
    intro x y xs h
    have hfalse : (y :: xs).any (fun num => decide (num = 0)) = false := by
      rw [← Bool.not_eq_true]
      exact fun hc => h ((any_zero_iff_mem _).mp hc)
    simp only [divide, hfalse]
    simp
  refine ⟨rfl, fun x => rfl, fun x y xs => ?_, hok, fun y xs h => ⟨_, hok 0 y xs h⟩⟩
  by_cases hmem : (0 : ℚ) ∈ y :: xs
  · have htrue : (y :: xs).any (fun num => decide (num = 0)) = true :=
      (any_zero_iff_mem _).mpr hmem
    simp only [divide, htrue]
    simp [hmem]
  · rw [hok x y xs hmem]
    simp [hmem]

/-- Witness for C1 at concrete inputs: `divide [20, 4]` succeeds with the
fold value (no zero after the head), and `divide [0, 5]` succeeds even
though its first element is `0`. -/
theorem divide_contract_witness :
    ((0 : ℚ) ∉ [(4 : ℚ)] ∧
      divide [20, 4] = Except.ok (([(4 : ℚ)]).foldl (fun a b => a / b) 20)) ∧
    ((0 : ℚ) ∉ [(5 : ℚ)] ∧ ∃ q, divide [0, 5] = Except.ok q) :=
  ⟨⟨by decide, divide_contract.2.2.2.1 20 4 [] (by decide)⟩,
    ⟨by decide, divide_contract.2.2.2.2 5 [] (by decide)⟩⟩

/-! ## Lemmas about the CLI pipeline -/

theorem toNat_charOfNat_of_valid {n : ℕ} (h : n.isValidChar) :
    (Char.ofNat n).toNat = n := by
  rw [Char.ofNat, dif_pos h]
  rfl

theorem pyLowerChar_idem (c : Char) :
    pyLowerChar (pyLowerChar c) = pyLowerChar c := by
  unfold pyLowerChar
  by_cases h : 65 ≤ c.toNat ∧ c.toNat ≤ 90
  · rw [if_pos h]
    have hv : (c.toNat + 32).isValidChar := Or.inl (by omega)
    have ht : (Char.ofNat (c.toNat + 32)).toNat = c.toNat + 32 :=
      toNat_charOfNat_of_valid hv
    rw [if_neg]
    rw [ht]
    omega
  · rw [if_neg h, if_neg h]

theorem map_pyLowerChar_idem (l : List Char) :
    (l.map pyLowerChar).map pyLowerChar = l.map pyLowerChar := by
  induction l with
  | nil => rfl
  | cons c cs ih => simp [ih, pyLowerChar_idem]

theorem pyLower_idem (s : String) : pyLower (pyLower s) = pyLower s := by
  show String.mk ((s.data.map pyLowerChar).map pyLowerChar) = pyLower s
  rw [map_pyLowerChar_idem]
  rfl

theorem parseNumbers_eq_none_of_mem (args : List String) (bad : String)
    (hmem : bad ∈ args) (hbad : pyFloat bad = none) :
    parseNumbers args = none := by
  induction args with
  | nil => cases hmem
  | cons s rest ih =>
    rcases List.mem_cons.mp hmem with h | h
    · subst h
      simp [parseNumbers, hbad]
    · cases hps : pyFloat s <;> simp [parseNumbers, hps, ih h]

theorem runCalcWith_short (impls : Op → List ℚ → Except CalcError ℚ)
    (argv : List String) (h : argv.length < 2) :
    runCalcWith impls argv = Except.error CalcError.insufficientArguments := by
  cases argv with
  | nil => rfl
  | cons a t =>
    cases t with
    | nil => rfl
    | cons b t2 =>
      exfalso
      simp only [List.length_cons] at h
      omega

theorem runCalcWith_invalidNumber (impls : Op → List ℚ → Except CalcError ℚ)
    (op bad : String) (numArgs : List String)
    (hmem : bad ∈ numArgs) (hbad : pyFloat bad = none) :
    runCalcWith impls (op :: numArgs) =
      Except.error CalcError.invalidNumberFormat := by
  cases numArgs with
  | nil => cases hmem
  | cons numArg restArgs =>
    simp only [runCalcWith,
      parseNumbers_eq_none_of_mem _ bad hmem hbad]

/-! ## Claim theorems for the CLI -/

/-- C2: the dispatch table maps exactly the four selectors `add`,
`subtract`, `multiply`, `divide` to their operations; any other
(lowercased) selector — `modulo` for example — makes the CLI fail with
the unknown-operation error for every well-formed numeric argument list,
whatever functions sit behind the dispatch table (so no operation is
invoked). -/
theorem dispatch_contract :
    (lookupOp "add" = some Op.add ∧ lookupOp "subtract" = some Op.subtract ∧
      lookupOp "multiply" = some Op.multiply ∧
      lookupOp "divide" = some Op.divide) ∧
    (∀ s : String, lookupOp s = none ↔
      (s ≠ "add" ∧ s ≠ "subtract" ∧ s ≠ "multiply" ∧ s ≠ "divide")) ∧
    lookupOp "modulo" = none ∧
    (∀ (impls : Op → List ℚ → Except CalcError ℚ) (s numArg : String)
      (restArgs : List String) (numbers : List ℚ),
      parseNumbers (numArg :: restArgs) = some numbers →
      lookupOp (pyLower s) = none →
      runCalcWith impls (s :: numArg :: restArgs) =
        Except.error CalcError.unknownOperation) := by
  refine ⟨⟨rfl, rfl, rfl, rfl⟩, fun s => ?_, rfl,
    fun impls s numArg restArgs numbers hparse hlook => ?_⟩
  · unfold lookupOp
    split_ifs with h1 h2 h3 h4 <;> simp_all
  · simp only [runCalcWith, hparse, hlook]

/-- Witness for C2: the selector `modulo` with the numeric argument `5`
fails with the unknown-operation error. -/
theorem dispatch_contract_witness :
    parseNumbers ["5"] = some [5] ∧ lookupOp (pyLower "modulo") = none ∧
    runCalcWith applyOp ["modulo", "5"] =
      Except.error CalcError.unknownOperation :=
  ⟨rfl, rfl, dispatch_contract.2.2.2 applyOp "modulo" "5" [] [5] rfl rfl⟩

/-- C7: an argument list containing a non-numeric argument makes the CLI
fail with the invalid-number-format error whatever the selector is and
whatever functions sit behind the dispatch table (so the error happens
before any operation runs). -/
theorem invalid_number_contract :
    ∀ (impls : Op → List ℚ → Except CalcError ℚ) (op bad : String)
      (numArgs : List String), bad ∈ numArgs → pyFloat bad = none →
      runCalcWith impls (op :: numArgs) =
        Except.error CalcError.invalidNumberFormat :=
  fun impls op bad numArgs hmem hbad =>
    runCalcWith_invalidNumber impls op bad numArgs hmem hbad

/-- Witness for C7: `add abc` fails with the invalid-number-format
error. -/
theorem invalid_number_contract_witness :
    "abc" ∈ ["abc"] ∧ pyFloat "abc" = none ∧
    runCalc ["add", "abc"] = Except.error CalcError.invalidNumberFormat :=
  ⟨by simp, rfl,
    invalid_number_contract applyOp "add" "abc" ["abc"] (by simp) rfl⟩

/-- C9: the operation selector is lowercased before dispatch, so the CLI
behaves identically on any selector and on its lowercase form; in
particular `ADD` and `Add` behave exactly like `add`. -/
theorem case_insensitive_contract :
    (∀ (s : String) (args : List String),
      runCalc (s :: args) = runCalc (pyLower s :: args)) ∧
    runCalc ["ADD", "5", "3"] = runCalc ["add", "5", "3"] ∧
    runCalc ["Add", "5", "3"] = runCalc ["add", "5", "3"] ∧
    pyLower "ADD" = "add" ∧ pyLower "Add" = "add" := by
  refine ⟨fun s args => ?_, rfl, rfl, rfl, rfl⟩
  cases args with
  | nil => rfl
  | cons a rest =>
    show runCalcWith applyOp (s :: a :: rest) =
      runCalcWith applyOp (pyLower s :: a :: rest)
    simp only [runCalcWith, pyLower_idem]

/-- C10: validation order is argument count, then numeric parsing, then
selector recognition: too few arguments always give the
insufficient-arguments error, and an unrecognized selector combined with
a non-numeric argument gives the invalid-number-format error, not the
unknown-operation one. -/
theorem precedence_contract :
    (∀ (impls : Op → List ℚ → Except CalcError ℚ) (argv : List String),
      argv.length < 2 →
      runCalcWith impls argv = Except.error CalcError.insufficientArguments) ∧
    (∀ (impls : Op → List ℚ → Except CalcError ℚ) (op bad : String)
      (numArgs : List String),
      lookupOp (pyLower op) = none → bad ∈ numArgs → pyFloat bad = none →
      runCalcWith impls (op :: numArgs) =
          Except.error CalcError.invalidNumberFormat ∧
        runCalcWith impls (op :: numArgs) ≠
          Except.error CalcError.unknownOperation) := by
  refine ⟨runCalcWith_short, fun impls op bad numArgs hlook hmem hbad => ?_⟩
  have h := runCalcWith_invalidNumber impls op bad numArgs hmem hbad
  refine ⟨h, ?_⟩
  rw [h]
  simp

/-- Witness for C10: the unrecognized selector `modulo` together with the
non-numeric argument `abc` fails with the invalid-number-format error,
and a single-argument invocation fails with the insufficient-arguments
error. -/
theorem precedence_contract_witness :
    (List.length ["add"] < 2 ∧
      runCalc ["add"] = Except.error CalcError.insufficientArguments) ∧
    (lookupOp (pyLower "modulo") = none ∧ "abc" ∈ ["abc"] ∧
      pyFloat "abc" = none ∧
      runCalc ["modulo", "abc"] =
          Except.error CalcError.invalidNumberFormat ∧
        runCalc ["modulo", "abc"] ≠
          Except.error CalcError.unknownOperation) :=
  ⟨⟨by simp, precedence_contract.1 applyOp ["add"] (by simp)⟩,
    ⟨rfl, by simp, rfl,
      precedence_contract.2 applyOp "modulo" "abc" ["abc"] rfl (by simp) rfl⟩⟩

/-- C6: the CLI exits with status 0 and prints the numeric result on
success and with status 1 on every error, the four error messages are
pairwise distinct, too few arguments always fail, and on the concrete
examples: `add 5 3` prints `8.0`, `divide 20 4` prints `5.0`, and
`divide 1 0` fails with the division-by-zero error and status 1. -/
theorem cli_contract :
    (∀ (argv : List String) (q : ℚ),
      runCalc argv = Except.ok q → exitCode (runCalc argv) = 0) ∧
    (∀ (argv : List String) (e : CalcError),
      runCalc argv = Except.error e → exitCode (runCalc argv) = 1) ∧
    Function.Injective errorMessage ∧
    (∀ argv : List String, argv.length < 2 →
      runCalc argv = Except.error CalcError.insufficientArguments) ∧
    runCalc ["add", "5", "3"] = Except.ok 8 ∧ pyShow 8 = "8.0" ∧
    runCalc ["divide", "20", "4"] = Except.ok 5 ∧ pyShow 5 = "5.0" ∧
    runCalc ["divide", "1", "0"] = Except.error CalcError.divisionByZero ∧
    exitCode (runCalc ["divide", "1", "0"]) = 1 := by
  refine ⟨fun argv q h => ?_, fun argv e h => ?_, ?_,
    fun argv h => runCalcWith_short applyOp argv h, ?_, rfl, ?_, rfl, rfl, rfl⟩
  · rw [h]
    rfl
  · rw [h]
    rfl
  · intro a b h
    cases a <;> cases b <;> first | rfl | (simp [errorMessage] at h)
  · have h : runCalc ["add", "5", "3"] = Except.ok (add [5, 3]) := rfl
    rw [h]
    exact congrArg Except.ok (by norm_num [add])
  · have h : runCalc ["divide", "20", "4"] =
        Except.ok (([(4 : ℚ)]).foldl (fun a b => a / b) 20) := rfl
    rw [h]
    exact congrArg Except.ok (by norm_num)

/-- Witness for C6: `divide 1 0` fails with the division-by-zero error
and exit status 1. -/
theorem cli_contract_witness :
    runCalc ["divide", "1", "0"] = Except.error CalcError.divisionByZero ∧
    exitCode (runCalc ["divide", "1", "0"]) = 1 :=
  ⟨rfl, cli_contract.2.1 ["divide", "1", "0"] CalcError.divisionByZero rfl⟩

end Calculator

namespace TemplateExporter

/-- Fixed configuration value `model_path` from
`generate_inference_model.py`. -/
def model_path : String := "models/Qwen2.5-1.5B-Instruct"

/-- Fixed configuration value `model_name` from
`generate_inference_model.py`. -/
def model_name : String := "Qwen2.5-1.5B-Instruct"

/-- One role/content entry of the fixed chat exchange. -/
structure ChatMessage where
  role : String
  content : String
deriving DecidableEq, Repr

/-- The fixed two-message `chat` list from the script: a system message
and a user message holding the literal placeholder token. -/
def chat : List ChatMessage :=
  [{ role := "system", content := "You are a helpful assistant." },
    { role := "user", content := "\x7bContent\x7d" }]

/-- The inner `PromptTemplate` object of the serialized record. -/
structure PromptTemplate where
  assistant : String
  prompt : String
deriving DecidableEq, Repr

/-- The whole record written to `inference_model.json` (`Name` and
`PromptTemplate` keys of the Python dict). -/
structure InferenceModel where
  name : String
  promptTemplate : PromptTemplate
deriving DecidableEq, Repr

/-- The `json_template` dict built by the script, as a function of the
`template` string returned by the external chat-template renderer: the
name is the fixed model name, the assistant field is the literal
placeholder string, and the prompt field is the renderer's output,
unchanged. -/
def json_template (template : String) : InferenceModel :=
  { name := model_name
    promptTemplate := { assistant := "\x7bContent\x7d", prompt := template } }

/-- Target path `os.path.join(model_path, "inference_model.json")`. -/
def json_file : String := model_path ++ "/inference_model.json"

/-- Lower-case hexadecimal digit, as in Python's JSON encoder. -/
def hexDigit (n : ℕ) : Char :=
  if n < 10 then Char.ofNat (48 + n) else Char.ofNat (87 + n)

/-- Four-digit hexadecimal rendering used by JSON `\u` escapes. -/
def hex4 (n : ℕ) : String :=
  String.mk [hexDigit (n / 4096 % 16), hexDigit (n / 256 % 16),
    hexDigit (n / 16 % 16), hexDigit (n % 16)]

/-- A JSON `\uXXXX` escape sequence. -/
def uEscape (n : ℕ) : String :=
  "\\u" ++ hex4 n

/-- Models the escaping of one character by Python's `json.dump` with its
default `ensure_ascii=True`: the two-character escapes for quote,
backslash and the control characters that have them, `\uXXXX` for other
control or non-ASCII characters (a surrogate pair beyond the BMP), and
the character itself for printable ASCII. -/
def jsonEscapeChar (c : Char) : String :=
  if c = '"' then "\\\""
  else if c = '\\' then "\\\\"
  else if c = '\n' then "\\n"
  else if c = '\r' then "\\r"
  else if c = '\t' then "\\t"
  else if c.toNat = 8 then "\\b"
  else if c.toNat = 12 then "\\f"
  else if c.toNat < 32 then uEscape c.toNat
  else if c.toNat < 127 then String.mk [c]
  else if c.toNat < 65536 then uEscape c.toNat
  else uEscape (55296 + (c.toNat - 65536) / 1024) ++
    uEscape (56320 + (c.toNat - 65536) % 1024)

/-- A JSON string literal: the escaped characters between quotes. -/
def jsonQuote (s : String) : String :=
  "\"" ++ String.join (s.data.map jsonEscapeChar) ++ "\""

/-- A run of indentation spaces. -/
def spaces (n : ℕ) : String := String.mk (List.replicate n ' ')

/-- Models the layout `json.dump(..., indent=2)` gives an object whose
member values are already rendered: each member on its own line indented
by `2 * (level + 1)` spaces, members separated by `,`, and the closing
brace indented by `2 * level` spaces. -/
def dumpObj (level : ℕ) (members : List (String × String)) : String :=
  match members with
  | [] => "\x7b\x7d"
  | _ =>
    "\x7b\n" ++
      String.intercalate ",\n"
        (members.map (fun kv =>
          spaces (2 * (level + 1)) ++ jsonQuote kv.1 ++ ": " ++ kv.2)) ++
      "\n" ++ spaces (2 * level) ++ "\x7d"

/-- The file contents produced by `json.dump(json_template, f, indent=2)`:
the two-key record, member order as in the source dict. -/
def dumpInferenceModel (m : InferenceModel) : String :=
  dumpObj 0
    [("Name", jsonQuote m.name),
      ("PromptTemplate",
        dumpObj 1
          [("assistant", jsonQuote m.promptTemplate.assistant),
            ("prompt", jsonQuote m.promptTemplate.prompt)])]

/-- The script body as a function of the external renderer capability
(`tokenizer.apply_chat_template`, an opaque external service per the
spec): it is called exactly once, on the fixed chat with
`tokenize=False` and `add_generation_prompt=True`, and the script's
output is the target path together with the serialized record. -/
def generate_inference_model
    (render : List ChatMessage → Bool → Bool → String) : String × String :=
  let template := render chat false true
  (json_file, dumpInferenceModel (json_template template))

/-- Helper: the serialized record splits as a fixed prefix, the JSON
quotation of the prompt string, and a fixed suffix. -/
theorem dumpInferenceModel_data_split (template : String) :
    (dumpInferenceModel (json_template template)).data =
      ("\x7b\n  \"Name\": \"Qwen2.5-1.5B-Instruct\",\n  \"PromptTemplate\": \x7b\n    \"assistant\": \"\x7bContent\x7d\",\n    \"prompt\": ").data ++
        ((jsonQuote template).data ++ ("\n  \x7d\n\x7d").data) := by
  have hd : ∀ a b : String, (a ++ b).data = a.data ++ b.data := fun a b => rfl
  show (dumpObj 0 [("Name", jsonQuote model_name),
      ("PromptTemplate",
        dumpObj 1
          [("assistant", jsonQuote "\x7bContent\x7d"),
            ("prompt", jsonQuote template)])]).data = _
  simp only [dumpObj, String.intercalate, String.intercalate.go, List.map]
  rw [show jsonQuote "Name" = "\"Name\"" from rfl,
    show jsonQuote model_name = "\"Qwen2.5-1.5B-Instruct\"" from rfl,
    show jsonQuote "PromptTemplate" = "\"PromptTemplate\"" from rfl,
    show jsonQuote "assistant" = "\"assistant\"" from rfl,
    show jsonQuote "\x7bContent\x7d" = "\"\x7bContent\x7d\"" from rfl,
    show jsonQuote "prompt" = "\"prompt\"" from rfl,
    show spaces 2 = "  " from rfl,
    show spaces 4 = "    " from rfl,
    show spaces 0 = "" from rfl]
  simp only [hd, List.append_assoc]
  norm_num

/-- C8: the exporter builds the record with the fixed model name, the
literal placeholder string in the assistant field, and the renderer's
output verbatim in the prompt field; it calls the external renderer once
with `tokenize=False` and `add_generation_prompt=True`; and it serializes
the record with 2-space indentation to the fixed relative path, embedding
the (JSON-quoted) prompt between a fixed prefix and suffix — shown in
full on a sample rendered string. -/
theorem template_exporter_contract :
    (∀ template : String,
      (json_template template).name = "Qwen2.5-1.5B-Instruct" ∧
      (json_template template).promptTemplate.assistant = "\x7bContent\x7d" ∧
      (json_template template).promptTemplate.prompt = template) ∧
    json_file = "models/Qwen2.5-1.5B-Instruct/inference_model.json" ∧
    (∀ render : List ChatMessage → Bool → Bool → String,
      generate_inference_model render =
        (json_file, dumpInferenceModel (json_template (render chat false true)))) ∧
    (∀ template : String,
      (dumpInferenceModel (json_template template)).data =
        ("\x7b\n  \"Name\": \"Qwen2.5-1.5B-Instruct\",\n  \"PromptTemplate\": \x7b\n    \"assistant\": \"\x7bContent\x7d\",\n    \"prompt\": ").data ++
          ((jsonQuote template).data ++ ("\n  \x7d\n\x7d").data)) ∧
    dumpInferenceModel (json_template "PROMPT") =
      "\x7b\n  \"Name\": \"Qwen2.5-1.5B-Instruct\",\n  \"PromptTemplate\": \x7b\n    \"assistant\": \"\x7bContent\x7d\",\n    \"prompt\": \"PROMPT\"\n  \x7d\n\x7d" :=
  ⟨fun _ => ⟨rfl, rfl, rfl⟩, rfl, fun _ => rfl,
    dumpInferenceModel_data_split, rfl⟩

end TemplateExporter
